import Mathlib

/-!
Verification of the rice-husk circular-economy simulator math engines.

The repository holds two formula-engine variants:
  * Variant A (Rice_Web_App.py and Rice_Web_App_updated.py, identical
    calculation blocks): a time-integrated methane model with carbon-credit
    revenue and no payback model.
  * Variant B (updated_gui_ricehusk.py RiceHuskMath.calculate, and the
    module-level calculate in Rice_Web_App_OLD_BACKUP.py.py): a flat
    per-hectare methane model with a generator-efficiency term and a
    capex/payback model.  The two variant-B sources share every formula and
    every constant; they differ only in the sentinel returned for payback
    when profit is not positive (99.9 versus 0).

Numbers are embedded as exact rationals; every decimal literal of the
source denotes the exact rational it spells (so 0.22 is 11/50, etc.).
All functions below are transcribed line by line from the Python sources,
with the module-level (or instance-level) constants gathered into a
record so that the same formulas can be evaluated at the source constant
set or at an arbitrary one.
-/

namespace VariantA

/-- The scientific and price constants of the variant A sources
(Rice_Web_App.py lines 36-42 and Rice_Web_App_updated.py lines 33-39;
the two files declare identical values).  The husk fraction appears in the
source as the bare literal 0.22 in the mass-balance line; it is named
HUSK_FRAC here.  The source name of the flooded/AWD factors, calorific
value, biochar yield and prices are kept. -/
structure Constants where
  HUSK_FRAC : ℚ
  EF_FLOODED : ℚ
  EF_AWD : ℚ
  CV_HUSK : ℚ
  BIOCHAR_YIELD : ℚ
  PRICE_ELEC : ℚ
  PRICE_CHAR : ℚ
  PRICE_CARBON_CREDIT : ℚ
deriving DecidableEq, Repr

/-- The constant set exactly as written in both variant A source files:
EF_FLOODED = 1.30, EF_AWD = 0.75 (kg CH4/ha/day), CV_HUSK = 14 MJ/kg,
BIOCHAR_YIELD = 0.25, PRICE_ELEC = 7.0, PRICE_CHAR = 15.0,
PRICE_CARBON_CREDIT = 2500, husk fraction literal 0.22. -/
def srcConstants : Constants :=
  { HUSK_FRAC := 0.22
    EF_FLOODED := 1.30
    EF_AWD := 0.75
    CV_HUSK := 14
    BIOCHAR_YIELD := 0.25
    PRICE_ELEC := 7.0
    PRICE_CHAR := 15.0
    PRICE_CARBON_CREDIT := 2500 }

/-- Mass balance, step 1: total_paddy = area * yield_per_ha. -/
def total_paddy (area yield_per_ha : ℚ) : ℚ := area * yield_per_ha

/-- Mass balance, step 2: husk_mass = total_paddy * 0.22. -/
def husk_mass (c : Constants) (area yield_per_ha : ℚ) : ℚ :=
  total_paddy area yield_per_ha * c.HUSK_FRAC

/-- Energy model: energy_mj = husk_mass * CV_HUSK * efficiency. -/
def energy_mj (c : Constants) (area yield_per_ha efficiency : ℚ) : ℚ :=
  husk_mass c area yield_per_ha * c.CV_HUSK * efficiency

/-- Energy model: energy_kwh = energy_mj / 3.6. -/
def energy_kwh (c : Constants) (area yield_per_ha efficiency : ℚ) : ℚ :=
  energy_mj c area yield_per_ha efficiency / 3.6

/-- Biochar model: biochar_mass = husk_mass * BIOCHAR_YIELD. -/
def biochar_mass (c : Constants) (area yield_per_ha : ℚ) : ℚ :=
  husk_mass c area yield_per_ha * c.BIOCHAR_YIELD

/-- Methane model: methane_flooded = EF_FLOODED * area * season_days. -/
def methane_flooded (c : Constants) (area season_days : ℚ) : ℚ :=
  c.EF_FLOODED * area * season_days

/-- Methane model: methane_awd = EF_AWD * area * season_days. -/
def methane_awd (c : Constants) (area season_days : ℚ) : ℚ :=
  c.EF_AWD * area * season_days

/-- Methane model: methane_avoided = methane_flooded - methane_awd. -/
def methane_avoided (c : Constants) (area season_days : ℚ) : ℚ :=
  methane_flooded c area season_days - methane_awd c area season_days

/-- Carbon credit model: co2_eq_tons = methane_avoided * 28 / 1000. -/
def co2_eq_tons (c : Constants) (area season_days : ℚ) : ℚ :=
  methane_avoided c area season_days * 28 / 1000

/-- Carbon credit revenue: revenue_carbon = co2_eq_tons * PRICE_CARBON_CREDIT. -/
def revenue_carbon (c : Constants) (area season_days : ℚ) : ℚ :=
  co2_eq_tons c area season_days * c.PRICE_CARBON_CREDIT

/-- Financials: revenue_elec = energy_kwh * PRICE_ELEC. -/
def revenue_elec (c : Constants) (area yield_per_ha efficiency : ℚ) : ℚ :=
  energy_kwh c area yield_per_ha efficiency * c.PRICE_ELEC

/-- Financials: revenue_char = biochar_mass * PRICE_CHAR. -/
def revenue_char (c : Constants) (area yield_per_ha : ℚ) : ℚ :=
  biochar_mass c area yield_per_ha * c.PRICE_CHAR

/-- Financials: total_revenue = revenue_elec + revenue_char + revenue_carbon. -/
def total_revenue (c : Constants) (area yield_per_ha efficiency season_days : ℚ) : ℚ :=
  revenue_elec c area yield_per_ha efficiency + revenue_char c area yield_per_ha +
    revenue_carbon c area season_days

end VariantA

namespace VariantB

/-- The constants of the variant B sources (updated_gui_ricehusk.py lines
12-21 inside RiceHuskMath, Rice_Web_App_OLD_BACKUP.py.py lines 33-41 inside
calculate; the two sources declare identical values).  The source calls the
husk fraction HUSK_RATIO; it is named HUSK_FRAC here. -/
structure Constants where
  HUSK_FRAC : ℚ
  LHV : ℚ
  GEN_EFF : ℚ
  BIOCHAR_YIELD : ℚ
  EF_FLOODED : ℚ
  EF_AWD : ℚ
  PRICE_ELEC : ℚ
  PRICE_CHAR : ℚ
  CAPEX_PER_KW : ℚ
deriving DecidableEq, Repr

/-- The constant set exactly as written in both variant B sources:
husk fraction 0.22, LHV = 13.5 MJ/kg, GEN_EFF = 0.30, BIOCHAR_YIELD = 0.20,
EF_FLOODED = 30 and EF_AWD = 16 kg CH4/ha (flat), PRICE_ELEC = 7.0,
PRICE_CHAR = 15.0, CAPEX_PER_KW = 80000. -/
def srcConstants : Constants :=
  { HUSK_FRAC := 0.22
    LHV := 13.5
    GEN_EFF := 0.30
    BIOCHAR_YIELD := 0.20
    EF_FLOODED := 30
    EF_AWD := 16
    PRICE_ELEC := 7.0
    PRICE_CHAR := 15.0
    CAPEX_PER_KW := 80000 }

/-- Step 1: total_paddy = area * paddy_yield. -/
def total_paddy (area paddy_yield : ℚ) : ℚ := area * paddy_yield

/-- Step 1: total_husk = total_paddy * HUSK_RATIO. -/
def total_husk (c : Constants) (area paddy_yield : ℚ) : ℚ :=
  total_paddy area paddy_yield * c.HUSK_FRAC

/-- Step 2 (Eq 2): energy_mj = total_husk * LHV * gasifier_eff * GEN_EFF. -/
def energy_mj (c : Constants) (area paddy_yield gasifier_eff : ℚ) : ℚ :=
  total_husk c area paddy_yield * c.LHV * gasifier_eff * c.GEN_EFF

/-- Step 2: energy_kwh = energy_mj / 3.6. -/
def energy_kwh (c : Constants) (area paddy_yield gasifier_eff : ℚ) : ℚ :=
  energy_mj c area paddy_yield gasifier_eff / 3.6

/-- Step 3 (Eq 3): biochar_kg = total_husk * BIOCHAR_YIELD. -/
def biochar_kg (c : Constants) (area paddy_yield : ℚ) : ℚ :=
  total_husk c area paddy_yield * c.BIOCHAR_YIELD

/-- Step 4 (Eq 1): ch4_saved = area * (EF_FLOODED - EF_AWD). -/
def ch4_saved (c : Constants) (area : ℚ) : ℚ :=
  area * (c.EF_FLOODED - c.EF_AWD)

/-- Step 4: co2_equivalent = ch4_saved * 28 (GWP of methane is 28). -/
def co2_equivalent (c : Constants) (area : ℚ) : ℚ :=
  ch4_saved c area * 28

/-- Step 5 (Eq 4): capacity_kw = energy_kwh / 1000. -/
def capacity_kw (c : Constants) (area paddy_yield gasifier_eff : ℚ) : ℚ :=
  energy_kwh c area paddy_yield gasifier_eff / 1000

/-- Step 5: capex = max(capacity_kw, 5) * CAPEX_PER_KW (minimum 5 kW system). -/
def capex (c : Constants) (area paddy_yield gasifier_eff : ℚ) : ℚ :=
  max (capacity_kw c area paddy_yield gasifier_eff) 5 * c.CAPEX_PER_KW

/-- Step 5: revenue = energy_kwh * PRICE_ELEC + biochar_kg * PRICE_CHAR. -/
def revenue (c : Constants) (area paddy_yield gasifier_eff : ℚ) : ℚ :=
  energy_kwh c area paddy_yield gasifier_eff * c.PRICE_ELEC +
    biochar_kg c area paddy_yield * c.PRICE_CHAR

/-- Step 5: opex = capex * 0.10 (10 percent maintenance). -/
def opex (c : Constants) (area paddy_yield gasifier_eff : ℚ) : ℚ :=
  capex c area paddy_yield gasifier_eff * 0.10

/-- Step 5: profit = revenue - opex. -/
def profit (c : Constants) (area paddy_yield gasifier_eff : ℚ) : ℚ :=
  revenue c area paddy_yield gasifier_eff - opex c area paddy_yield gasifier_eff

/-- Payback of updated_gui_ricehusk.py:
payback = capex / profit if profit > 0 else 99.9. -/
def payback_gui (c : Constants) (area paddy_yield gasifier_eff : ℚ) : ℚ :=
  if profit c area paddy_yield gasifier_eff > 0 then
    capex c area paddy_yield gasifier_eff / profit c area paddy_yield gasifier_eff
  else 99.9

/-- Payback of Rice_Web_App_OLD_BACKUP.py.py:
payback = capex / profit if profit > 0, else payback = 0. -/
def payback_old (c : Constants) (area paddy_yield gasifier_eff : ℚ) : ℚ :=
  if profit c area paddy_yield gasifier_eff > 0 then
    capex c area paddy_yield gasifier_eff / profit c area paddy_yield gasifier_eff
  else 0

/-- The record returned by both variant B engines: keys energy, biochar,
co2, revenue, payback of the dict in updated_gui_ricehusk.py, and the
corresponding 5-tuple returned by Rice_Web_App_OLD_BACKUP.py.py. -/
structure Result where
  energy : ℚ
  biochar : ℚ
  co2 : ℚ
  revenue : ℚ
  payback : ℚ
deriving DecidableEq, Repr

/-- RiceHuskMath.calculate of updated_gui_ricehusk.py. -/
def calculate_gui (c : Constants) (area paddy_yield gasifier_eff : ℚ) : Result :=
  { energy := energy_kwh c area paddy_yield gasifier_eff
    biochar := biochar_kg c area paddy_yield
    co2 := co2_equivalent c area
    revenue := revenue c area paddy_yield gasifier_eff
    payback := payback_gui c area paddy_yield gasifier_eff }

/-- The module-level calculate of Rice_Web_App_OLD_BACKUP.py.py, packaged
as the same record (the source returns the tuple
(energy_kwh, biochar_kg, co2_eq, revenue, payback)). -/
def calculate_old (c : Constants) (area paddy_yield gasifier_eff : ℚ) : Result :=
  { energy := energy_kwh c area paddy_yield gasifier_eff
    biochar := biochar_kg c area paddy_yield
    co2 := co2_equivalent c area
    revenue := revenue c area paddy_yield gasifier_eff
    payback := payback_old c area paddy_yield gasifier_eff }

end VariantB

/-- C1: with the variant A source constants (husk fraction 0.22, calorific
value 14 MJ/kg, biochar yield 0.25, emission factors 1.30 and 0.75
kg CH4/ha/day, GWP 28), the input area=5, yield=4500, efficiency=0.70,
seasonDays=120 produces totalPaddyKg=22500, huskMassKg=4950,
energyKwh = 4950*14*0.70/3.6 = 13475 exactly, biocharMassKg=1237.5,
methaneFloodedKg=780, methaneAwdKg=450, methaneAvoidedKg=330 and
co2EquivalentTons=9.24. -/
theorem claimC1_variantA_scenario :
    VariantA.total_paddy 5 4500 = 22500 ∧
    VariantA.husk_mass VariantA.srcConstants 5 4500 = 4950 ∧
    VariantA.energy_kwh VariantA.srcConstants 5 4500 0.70 = 4950 * 14 * 0.70 / 3.6 ∧
    VariantA.energy_kwh VariantA.srcConstants 5 4500 0.70 = 13475 ∧
    VariantA.biochar_mass VariantA.srcConstants 5 4500 = 1237.5 ∧
    VariantA.methane_flooded VariantA.srcConstants 5 120 = 780 ∧
    VariantA.methane_awd VariantA.srcConstants 5 120 = 450 ∧
    VariantA.methane_avoided VariantA.srcConstants 5 120 = 330 ∧
    VariantA.co2_eq_tons VariantA.srcConstants 5 120 = 9.24 := by
  norm_num [VariantA.total_paddy, VariantA.husk_mass, VariantA.energy_kwh,
    VariantA.energy_mj, VariantA.biochar_mass, VariantA.methane_flooded,
    VariantA.methane_awd, VariantA.methane_avoided, VariantA.co2_eq_tons,
    VariantA.srcConstants]

/-- C2: with the variant B source constants (husk ratio 0.22, LHV 13.5
MJ/kg, generator efficiency 0.30, biochar yield 0.20, flat emission factors
30 and 16 kg CH4/ha, GWP 28), the input area=50, yield=4500,
efficiency=0.70 produces totalHuskKg=49500,
energyKwh = 49500*13.5*0.70*0.30/3.6 = 38981.25 exactly, biocharKg=9900,
ch4SavedKg=700 and co2Kg=19600. -/
theorem claimC2_variantB_scenario :
    VariantB.total_husk VariantB.srcConstants 50 4500 = 49500 ∧
    (VariantB.calculate_gui VariantB.srcConstants 50 4500 0.70).energy =
      49500 * 13.5 * 0.70 * 0.30 / 3.6 ∧
    (VariantB.calculate_gui VariantB.srcConstants 50 4500 0.70).energy = 38981.25 ∧
    (VariantB.calculate_gui VariantB.srcConstants 50 4500 0.70).biochar = 9900 ∧
    VariantB.ch4_saved VariantB.srcConstants 50 = 700 ∧
    (VariantB.calculate_gui VariantB.srcConstants 50 4500 0.70).co2 = 19600 := by
  norm_num [VariantB.total_husk, VariantB.total_paddy, VariantB.calculate_gui,
    VariantB.energy_kwh, VariantB.energy_mj, VariantB.biochar_kg,
    VariantB.ch4_saved, VariantB.co2_equivalent, VariantB.srcConstants]

/-- C3: in both variant B engines, whenever the computed profit is not
positive the payback field is an explicit finite constant sentinel (99.9 in
updated_gui_ricehusk.py, 0 in Rice_Web_App_OLD_BACKUP.py.py), never
negative and never the result of a division; capex is divided by profit
only when profit is strictly positive. -/
theorem claimC3_payback_sentinel :
    ∀ area paddy_yield gasifier_eff : ℚ,
      (VariantB.profit VariantB.srcConstants area paddy_yield gasifier_eff ≤ 0 →
        (VariantB.calculate_gui VariantB.srcConstants area paddy_yield gasifier_eff).payback
          = 99.9 ∧
        (VariantB.calculate_old VariantB.srcConstants area paddy_yield gasifier_eff).payback
          = 0) ∧
      (0 < VariantB.profit VariantB.srcConstants area paddy_yield gasifier_eff →
        (VariantB.calculate_gui VariantB.srcConstants area paddy_yield gasifier_eff).payback
          = VariantB.capex VariantB.srcConstants area paddy_yield gasifier_eff /
              VariantB.profit VariantB.srcConstants area paddy_yield gasifier_eff ∧
        (VariantB.calculate_old VariantB.srcConstants area paddy_yield gasifier_eff).payback
          = VariantB.capex VariantB.srcConstants area paddy_yield gasifier_eff /
              VariantB.profit VariantB.srcConstants area paddy_yield gasifier_eff) := by
  refine fun area paddy_yield gasifier_eff => ⟨fun h => ?_, fun h => ?_⟩
  · simp [VariantB.calculate_gui, VariantB.calculate_old, VariantB.payback_gui,
      VariantB.payback_old, not_lt.mpr h]
  · simp [VariantB.calculate_gui, VariantB.calculate_old, VariantB.payback_gui,
      VariantB.payback_old, h]

/-- Witness for C3: at area=0, yield=0, efficiency=0 the profit is
-40000 ≤ 0 and both sentinels are returned; at area=100, yield=4500,
efficiency=0.9 the profit is positive and payback is capex / profit. -/
theorem claimC3_payback_sentinel_witness :
    (VariantB.profit VariantB.srcConstants 0 0 0 ≤ 0 ∧
      (VariantB.calculate_gui VariantB.srcConstants 0 0 0).payback = 99.9 ∧
      (VariantB.calculate_old VariantB.srcConstants 0 0 0).payback = 0) ∧
    (0 < VariantB.profit VariantB.srcConstants 100 4500 0.9 ∧
      (VariantB.calculate_gui VariantB.srcConstants 100 4500 0.9).payback
        = VariantB.capex VariantB.srcConstants 100 4500 0.9 /
            VariantB.profit VariantB.srcConstants 100 4500 0.9) := by
  have h1 : VariantB.profit VariantB.srcConstants 0 0 0 ≤ 0 := by
    norm_num [VariantB.profit, VariantB.revenue, VariantB.opex, VariantB.capex,
      VariantB.capacity_kw, VariantB.energy_kwh, VariantB.energy_mj,
      VariantB.total_husk, VariantB.total_paddy, VariantB.biochar_kg,
      VariantB.srcConstants, max_def]
  have h2 : 0 < VariantB.profit VariantB.srcConstants 100 4500 0.9 := by
    norm_num [VariantB.profit, VariantB.revenue, VariantB.opex, VariantB.capex,
      VariantB.capacity_kw, VariantB.energy_kwh, VariantB.energy_mj,
      VariantB.total_husk, VariantB.total_paddy, VariantB.biochar_kg,
      VariantB.srcConstants, max_def]
  exact ⟨⟨h1, (claimC3_payback_sentinel 0 0 0).1 h1⟩,
    ⟨h2, ((claimC3_payback_sentinel 100 4500 0.9).2 h2).1⟩⟩

/-- C4: holding the other inputs fixed, energy, biochar mass and revenue
are monotone in area and in yield.  For variant A with valid inputs
(positive yield and efficiency, non-negative season) the outputs are
strictly increasing in area, and strictly increasing in yield for positive
area; for variant B with non-negative fixed inputs they are non-decreasing
in area and in yield. -/
theorem claimC4_monotone_area_yield :
    (∀ a a2 y e s : ℚ, 0 < y → 0 < e → 0 ≤ s → a < a2 →
      VariantA.energy_kwh VariantA.srcConstants a y e <
        VariantA.energy_kwh VariantA.srcConstants a2 y e ∧
      VariantA.biochar_mass VariantA.srcConstants a y <
        VariantA.biochar_mass VariantA.srcConstants a2 y ∧
      VariantA.total_revenue VariantA.srcConstants a y e s <
        VariantA.total_revenue VariantA.srcConstants a2 y e s) ∧
    (∀ a y y2 e s : ℚ, 0 < a → 0 < e → 0 ≤ s → y < y2 →
      VariantA.energy_kwh VariantA.srcConstants a y e <
        VariantA.energy_kwh VariantA.srcConstants a y2 e ∧
      VariantA.biochar_mass VariantA.srcConstants a y <
        VariantA.biochar_mass VariantA.srcConstants a y2 ∧
      VariantA.total_revenue VariantA.srcConstants a y e s <
        VariantA.total_revenue VariantA.srcConstants a y2 e s) ∧
    (∀ a a2 y e : ℚ, 0 ≤ y → 0 ≤ e → a ≤ a2 →
      (VariantB.calculate_gui VariantB.srcConstants a y e).energy ≤
        (VariantB.calculate_gui VariantB.srcConstants a2 y e).energy ∧
      (VariantB.calculate_gui VariantB.srcConstants a y e).biochar ≤
        (VariantB.calculate_gui VariantB.srcConstants a2 y e).biochar ∧
      (VariantB.calculate_gui VariantB.srcConstants a y e).revenue ≤
        (VariantB.calculate_gui VariantB.srcConstants a2 y e).revenue) ∧
    (∀ a y y2 e : ℚ, 0 ≤ a → 0 ≤ e → y ≤ y2 →
      (VariantB.calculate_gui VariantB.srcConstants a y e).energy ≤
        (VariantB.calculate_gui VariantB.srcConstants a y2 e).energy ∧
      (VariantB.calculate_gui VariantB.srcConstants a y e).biochar ≤
        (VariantB.calculate_gui VariantB.srcConstants a y2 e).biochar ∧
      (VariantB.calculate_gui VariantB.srcConstants a y e).revenue ≤
        (VariantB.calculate_gui VariantB.srcConstants a y2 e).revenue) := by
  refine ⟨fun a a2 y e s hy he hs hlt => ?_, fun a y y2 e s ha he hs hlt => ?_,
    fun a a2 y e hy he hle => ?_, fun a y y2 e ha he hle => ?_⟩
  · have h1 : 0 < a2 - a := sub_pos.mpr hlt
    have k1 : 0 < (a2 - a) * y * e := mul_pos (mul_pos h1 hy) he
    have k2 : 0 < (a2 - a) * y := mul_pos h1 hy
    have k3 : 0 ≤ (a2 - a) * s := mul_nonneg h1.le hs
    refine ⟨?_, ?_, ?_⟩ <;>
      simp only [VariantA.energy_kwh, VariantA.energy_mj, VariantA.husk_mass,
        VariantA.total_paddy, VariantA.biochar_mass, VariantA.total_revenue,
        VariantA.revenue_elec, VariantA.revenue_char, VariantA.revenue_carbon,
        VariantA.co2_eq_tons, VariantA.methane_avoided, VariantA.methane_flooded,
        VariantA.methane_awd, VariantA.srcConstants] <;>
      norm_num <;> nlinarith [k1, k2, k3]
  · have h1 : 0 < y2 - y := sub_pos.mpr hlt
    have k1 : 0 < a * (y2 - y) * e := mul_pos (mul_pos ha h1) he
    have k2 : 0 < a * (y2 - y) := mul_pos ha h1
    refine ⟨?_, ?_, ?_⟩ <;>
      simp only [VariantA.energy_kwh, VariantA.energy_mj, VariantA.husk_mass,
        VariantA.total_paddy, VariantA.biochar_mass, VariantA.total_revenue,
        VariantA.revenue_elec, VariantA.revenue_char, VariantA.revenue_carbon,
        VariantA.co2_eq_tons, VariantA.methane_avoided, VariantA.methane_flooded,
        VariantA.methane_awd, VariantA.srcConstants] <;>
      norm_num <;> nlinarith [k1, k2]
  · have h1 : 0 ≤ a2 - a := sub_nonneg.mpr hle
    have k1 : 0 ≤ (a2 - a) * y * e := mul_nonneg (mul_nonneg h1 hy) he
    have k2 : 0 ≤ (a2 - a) * y := mul_nonneg h1 hy
    refine ⟨?_, ?_, ?_⟩ <;>
      simp only [VariantB.calculate_gui, VariantB.energy_kwh, VariantB.energy_mj,
        VariantB.total_husk, VariantB.total_paddy, VariantB.biochar_kg,
        VariantB.revenue, VariantB.srcConstants] <;>
      norm_num <;> nlinarith [k1, k2]
  · have h1 : 0 ≤ y2 - y := sub_nonneg.mpr hle
    have k1 : 0 ≤ a * (y2 - y) * e := mul_nonneg (mul_nonneg ha h1) he
    have k2 : 0 ≤ a * (y2 - y) := mul_nonneg ha h1
    refine ⟨?_, ?_, ?_⟩ <;>
      simp only [VariantB.calculate_gui, VariantB.energy_kwh, VariantB.energy_mj,
        VariantB.total_husk, VariantB.total_paddy, VariantB.biochar_kg,
        VariantB.revenue, VariantB.srcConstants] <;>
      norm_num <;> nlinarith [k1, k2]

/-- Witness for C4: each monotonicity conjunct instantiated at concrete
inputs, area 5 versus 6 and yield 4500 versus 4600, efficiency 0.7 and
season 120. -/
theorem claimC4_monotone_area_yield_witness :
    VariantA.energy_kwh VariantA.srcConstants 5 4500 0.7 <
      VariantA.energy_kwh VariantA.srcConstants 6 4500 0.7 ∧
    VariantA.total_revenue VariantA.srcConstants 5 4500 0.7 120 <
      VariantA.total_revenue VariantA.srcConstants 5 4600 0.7 120 ∧
    (VariantB.calculate_gui VariantB.srcConstants 5 4500 0.7).revenue ≤
      (VariantB.calculate_gui VariantB.srcConstants 6 4500 0.7).revenue ∧
    (VariantB.calculate_gui VariantB.srcConstants 5 4500 0.7).energy ≤
      (VariantB.calculate_gui VariantB.srcConstants 5 4600 0.7).energy := by
  refine ⟨?_, ?_, ?_, ?_⟩
  · exact (claimC4_monotone_area_yield.1 5 6 4500 0.7 120 (by norm_num) (by norm_num)
      (by norm_num) (by norm_num)).1
  · exact (claimC4_monotone_area_yield.2.1 5 4500 4600 0.7 120 (by norm_num) (by norm_num)
      (by norm_num) (by norm_num)).2.2
  · exact (claimC4_monotone_area_yield.2.2.1 5 6 4500 0.7 (by norm_num) (by norm_num)
      (by norm_num)).2.2
  · exact (claimC4_monotone_area_yield.2.2.2 5 4500 4600 0.7 (by norm_num) (by norm_num)
      (by norm_num)).1

/-- C5 counterexample: the claim that the engine rejects out-of-domain
inputs with a validation failure is false.  At the invalid input
area = -1 (negative), yield 4500, efficiency 0.7, both variant B engines
do not fail: they return the result record computed from the invalid
values, with negative energy and negative biochar outputs. -/
theorem claimC5_counterexample :
    (VariantB.calculate_gui VariantB.srcConstants (-1) 4500 0.7).energy < 0 ∧
    (VariantB.calculate_gui VariantB.srcConstants (-1) 4500 0.7).biochar < 0 ∧
    (VariantB.calculate_old VariantB.srcConstants (-1) 4500 0.7).energy < 0 := by
  norm_num [VariantB.calculate_gui, VariantB.calculate_old, VariantB.energy_kwh,
    VariantB.energy_mj, VariantB.total_husk, VariantB.total_paddy,
    VariantB.biochar_kg, VariantB.srcConstants]

/-- C5 amended: the variant B engines perform no input validation at all.
For every input with negative area and positive yield and efficiency, the
engine silently returns a result record computed from the invalid values,
whose energy and biochar outputs are negative, rather than rejecting the
input. -/
theorem claimC5_no_validation (area paddy_yield gasifier_eff : ℚ)
    (ha : area < 0) (hy : 0 < paddy_yield) (he : 0 < gasifier_eff) :
    (VariantB.calculate_gui VariantB.srcConstants area paddy_yield gasifier_eff).energy < 0 ∧
    (VariantB.calculate_gui VariantB.srcConstants area paddy_yield gasifier_eff).biochar < 0 ∧
    (VariantB.calculate_old VariantB.srcConstants area paddy_yield gasifier_eff).energy < 0 := by
  have k1 : 0 < -area * paddy_yield * gasifier_eff :=
    mul_pos (mul_pos (neg_pos.mpr ha) hy) he
  have k2 : 0 < -area * paddy_yield := mul_pos (neg_pos.mpr ha) hy
  refine ⟨?_, ?_, ?_⟩ <;>
    simp only [VariantB.calculate_gui, VariantB.calculate_old, VariantB.energy_kwh,
      VariantB.energy_mj, VariantB.total_husk, VariantB.total_paddy,
      VariantB.biochar_kg, VariantB.srcConstants] <;>
    norm_num <;> nlinarith [k1, k2]

/-- Witness for the amended C5 at area = -1, yield 4500, efficiency 0.7. -/
theorem claimC5_no_validation_witness :
    (-1 : ℚ) < 0 ∧
    (VariantB.calculate_gui VariantB.srcConstants (-1) 4500 0.7).biochar < 0 :=
  ⟨by norm_num,
    (claimC5_no_validation (-1) 4500 0.7 (by norm_num) (by norm_num) (by norm_num)).2.1⟩

/-- C6: the variant A engine is total on its domain: for every non-negative
area, yield and season length and every efficiency in (0,1], each output
(husk mass, energy, biochar mass, methane avoided, CO2-equivalent tons and
total revenue) is a non-negative rational.  Every value is an exact
rational, hence finite by construction. -/
theorem claimC6_variantA_total_nonneg (area yield_per_ha efficiency season_days : ℚ)
    (ha : 0 ≤ area) (hy : 0 ≤ yield_per_ha) (hs : 0 ≤ season_days)
    (he0 : 0 < efficiency) (he1 : efficiency ≤ 1) :
    0 ≤ VariantA.husk_mass VariantA.srcConstants area yield_per_ha ∧
    0 ≤ VariantA.energy_kwh VariantA.srcConstants area yield_per_ha efficiency ∧
    0 ≤ VariantA.biochar_mass VariantA.srcConstants area yield_per_ha ∧
    0 ≤ VariantA.methane_avoided VariantA.srcConstants area season_days ∧
    0 ≤ VariantA.co2_eq_tons VariantA.srcConstants area season_days ∧
    0 ≤ VariantA.total_revenue VariantA.srcConstants area yield_per_ha efficiency season_days := by
  have k1 : 0 ≤ area * yield_per_ha := mul_nonneg ha hy
  have k2 : 0 ≤ area * yield_per_ha * efficiency := mul_nonneg k1 he0.le
  have k3 : 0 ≤ area * season_days := mul_nonneg ha hs
  refine ⟨?_, ?_, ?_, ?_, ?_, ?_⟩ <;>
    simp only [VariantA.husk_mass, VariantA.total_paddy, VariantA.energy_kwh,
      VariantA.energy_mj, VariantA.biochar_mass, VariantA.methane_avoided,
      VariantA.methane_flooded, VariantA.methane_awd, VariantA.co2_eq_tons,
      VariantA.total_revenue, VariantA.revenue_elec, VariantA.revenue_char,
      VariantA.revenue_carbon, VariantA.srcConstants] <;>
    norm_num <;> nlinarith [k1, k2, k3]

/-- Witness for C6 at area=5, yield=4500, efficiency=0.7, season=120. -/
theorem claimC6_variantA_total_nonneg_witness :
    (0 : ℚ) ≤ 5 ∧ (0 : ℚ) < 0.7 ∧ (0.7 : ℚ) ≤ 1 ∧
    0 ≤ VariantA.total_revenue VariantA.srcConstants 5 4500 0.7 120 :=
  ⟨by norm_num, by norm_num, by norm_num,
    (claimC6_variantA_total_nonneg 5 4500 0.7 120 (by norm_num) (by norm_num)
      (by norm_num) (by norm_num) (by norm_num)).2.2.2.2.2⟩

/-- C7: the variant B compute entry points are deterministic and stateless.
Each is a pure function of the constant record and the three inputs: two
calls at fieldwise-identical inputs return identical result records, and
there is no other state the functions read or write. -/
theorem claimC7_deterministic (c : VariantB.Constants) (a1 y1 e1 a2 y2 e2 : ℚ)
    (ha : a1 = a2) (hy : y1 = y2) (he : e1 = e2) :
    VariantB.calculate_gui c a1 y1 e1 = VariantB.calculate_gui c a2 y2 e2 ∧
    VariantB.calculate_old c a1 y1 e1 = VariantB.calculate_old c a2 y2 e2 := by
  subst ha
  subst hy
  subst he
  exact ⟨rfl, rfl⟩

/-- Witness for C7: two calls with input (5, 4500, 0.7) agree. -/
theorem claimC7_deterministic_witness :
    VariantB.calculate_gui VariantB.srcConstants 5 4500 0.7 =
      VariantB.calculate_gui VariantB.srcConstants 5 4500 0.7 ∧
    VariantB.calculate_old VariantB.srcConstants 5 4500 0.7 =
      VariantB.calculate_old VariantB.srcConstants 5 4500 0.7 :=
  claimC7_deterministic VariantB.srcConstants 5 4500 0.7 5 4500 0.7 rfl rfl rfl

/-- C8: whenever the flooded emission factor is at least the AWD factor,
the avoided methane is non-negative for every non-negative area (and season
length, in variant A); and the source constant sets do satisfy
EF_FLOODED ≥ EF_AWD (1.30 ≥ 0.75 per day in variant A, 30 ≥ 16 flat in
variant B). -/
theorem claimC8_methane_avoided_nonneg :
    (∀ (c : VariantA.Constants) (area season_days : ℚ),
      c.EF_AWD ≤ c.EF_FLOODED → 0 ≤ area → 0 ≤ season_days →
        0 ≤ VariantA.methane_avoided c area season_days) ∧
    (∀ (c : VariantB.Constants) (area : ℚ),
      c.EF_AWD ≤ c.EF_FLOODED → 0 ≤ area → 0 ≤ VariantB.ch4_saved c area) ∧
    VariantA.srcConstants.EF_AWD ≤ VariantA.srcConstants.EF_FLOODED ∧
    VariantB.srcConstants.EF_AWD ≤ VariantB.srcConstants.EF_FLOODED := by
  refine ⟨fun c area season_days hc ha hs => ?_, fun c area hc ha => ?_, ?_, ?_⟩
  · have k : 0 ≤ (c.EF_FLOODED - c.EF_AWD) * area * season_days :=
      mul_nonneg (mul_nonneg (sub_nonneg.mpr hc) ha) hs
    simp only [VariantA.methane_avoided, VariantA.methane_flooded, VariantA.methane_awd]
    nlinarith [k]
  · have k : 0 ≤ area * (c.EF_FLOODED - c.EF_AWD) :=
      mul_nonneg ha (sub_nonneg.mpr hc)
    simpa only [VariantB.ch4_saved] using k
  · norm_num [VariantA.srcConstants]
  · norm_num [VariantB.srcConstants]

/-- Witness for C8: both universally quantified parts instantiated at the
source constants with area 5 and season length 120. -/
theorem claimC8_methane_avoided_nonneg_witness :
    0 ≤ VariantA.methane_avoided VariantA.srcConstants 5 120 ∧
    0 ≤ VariantB.ch4_saved VariantB.srcConstants 5 :=
  ⟨claimC8_methane_avoided_nonneg.1 VariantA.srcConstants 5 120
      (by norm_num [VariantA.srcConstants]) (by norm_num) (by norm_num),
    claimC8_methane_avoided_nonneg.2.1 VariantB.srcConstants 5
      (by norm_num [VariantB.srcConstants]) (by norm_num)⟩

/-- C9: the two variant B implementations agree on energy, biochar,
CO2-equivalent and revenue for every constant set and every input, and on
payback whenever profit is positive; when profit is not positive they
differ only in the sentinel, 99.9 in updated_gui_ricehusk.py against 0 in
Rice_Web_App_OLD_BACKUP.py.py. -/
theorem claimC9_variantB_equivalence (c : VariantB.Constants) (area paddy_yield gasifier_eff : ℚ) :
    (VariantB.calculate_gui c area paddy_yield gasifier_eff).energy =
      (VariantB.calculate_old c area paddy_yield gasifier_eff).energy ∧
    (VariantB.calculate_gui c area paddy_yield gasifier_eff).biochar =
      (VariantB.calculate_old c area paddy_yield gasifier_eff).biochar ∧
    (VariantB.calculate_gui c area paddy_yield gasifier_eff).co2 =
      (VariantB.calculate_old c area paddy_yield gasifier_eff).co2 ∧
    (VariantB.calculate_gui c area paddy_yield gasifier_eff).revenue =
      (VariantB.calculate_old c area paddy_yield gasifier_eff).revenue ∧
    (0 < VariantB.profit c area paddy_yield gasifier_eff →
      (VariantB.calculate_gui c area paddy_yield gasifier_eff).payback =
        (VariantB.calculate_old c area paddy_yield gasifier_eff).payback) ∧
    (VariantB.profit c area paddy_yield gasifier_eff ≤ 0 →
      (VariantB.calculate_gui c area paddy_yield gasifier_eff).payback = 99.9 ∧
      (VariantB.calculate_old c area paddy_yield gasifier_eff).payback = 0) := by
  refine ⟨rfl, rfl, rfl, rfl, fun h => ?_, fun h => ?_⟩
  · simp [VariantB.calculate_gui, VariantB.calculate_old, VariantB.payback_gui,
      VariantB.payback_old, h]
  · simp [VariantB.calculate_gui, VariantB.calculate_old, VariantB.payback_gui,
      VariantB.payback_old, not_lt.mpr h]

/-- Witness for C9: at the source constants, both the positive-profit
regime (input 100, 4500, 0.9) and the non-positive-profit regime
(input 0, 0, 0) are exercised. -/
theorem claimC9_variantB_equivalence_witness :
    ((VariantB.calculate_gui VariantB.srcConstants 100 4500 0.9).energy =
      (VariantB.calculate_old VariantB.srcConstants 100 4500 0.9).energy ∧
    0 < VariantB.profit VariantB.srcConstants 100 4500 0.9 ∧
    (VariantB.calculate_gui VariantB.srcConstants 100 4500 0.9).payback =
      (VariantB.calculate_old VariantB.srcConstants 100 4500 0.9).payback) ∧
    (VariantB.profit VariantB.srcConstants 0 0 0 ≤ 0 ∧
    (VariantB.calculate_gui VariantB.srcConstants 0 0 0).payback = 99.9 ∧
    (VariantB.calculate_old VariantB.srcConstants 0 0 0).payback = 0) := by
  have h2 : 0 < VariantB.profit VariantB.srcConstants 100 4500 0.9 := by
    norm_num [VariantB.profit, VariantB.revenue, VariantB.opex, VariantB.capex,
      VariantB.capacity_kw, VariantB.energy_kwh, VariantB.energy_mj,
      VariantB.total_husk, VariantB.total_paddy, VariantB.biochar_kg,
      VariantB.srcConstants, max_def]
  have h1 : VariantB.profit VariantB.srcConstants 0 0 0 ≤ 0 := by
    norm_num [VariantB.profit, VariantB.revenue, VariantB.opex, VariantB.capex,
      VariantB.capacity_kw, VariantB.energy_kwh, VariantB.energy_mj,
      VariantB.total_husk, VariantB.total_paddy, VariantB.biochar_kg,
      VariantB.srcConstants, max_def]
  exact ⟨⟨(claimC9_variantB_equivalence VariantB.srcConstants 100 4500 0.9).1, h2,
      (claimC9_variantB_equivalence VariantB.srcConstants 100 4500 0.9).2.2.2.2.1 h2⟩,
    ⟨h1, (claimC9_variantB_equivalence VariantB.srcConstants 0 0 0).2.2.2.2.2 h1⟩⟩

/-- C10: in the variant B engine with the source constants, the
CO2-equivalent output depends only on the area input and equals
area * (30 - 16) * 28 = 392 * area exactly, so yield and gasifier
efficiency do not interfere with the emissions outputs. -/
theorem claimC10_co2_depends_only_on_area (area y1 e1 y2 e2 : ℚ) :
    (VariantB.calculate_gui VariantB.srcConstants area y1 e1).co2 =
      (VariantB.calculate_gui VariantB.srcConstants area y2 e2).co2 ∧
    (VariantB.calculate_old VariantB.srcConstants area y1 e1).co2 =
      (VariantB.calculate_old VariantB.srcConstants area y2 e2).co2 ∧
    VariantB.ch4_saved VariantB.srcConstants area = 14 * area ∧
    (VariantB.calculate_gui VariantB.srcConstants area y1 e1).co2 = 392 * area ∧
    (VariantB.calculate_old VariantB.srcConstants area y1 e1).co2 = 392 * area := by
  refine ⟨rfl, rfl, ?_, ?_, ?_⟩ <;>
    · simp only [VariantB.calculate_gui, VariantB.calculate_old,
        VariantB.co2_equivalent, VariantB.ch4_saved, VariantB.srcConstants]
      norm_num
      ring
